import Mathlib

/-!
Verification of the client orchestration layer of the options-analytics
dashboard (frontend JavaScript sources).

The development shallowly embeds the reactive store (state.js,
src/unnamed/part_001 first document), the catalog-refresh controller
(src/frontend/js/app.js), the chart loader (Charts.fetchAndRender,
src/unnamed/part_005 second document), and the hierarchical dashboard
navigation (src/unnamed/part_004 and src/frontend/js/dashboard.js).

Modelling conventions:
- JavaScript strings are Lean String; the JS falsiness of the empty string
  and of a missing (undefined) string field is modelled by the value "".
- JavaScript objects used as string-keyed dictionaries are association
  lists in insertion order, looked up with lookupStr.
- The default Array.prototype.sort comparator (lexicographic comparison of
  code units) is modelled by strLeb; the catalog keys and file names in
  play are ASCII, where code-unit order and code-point order agree.
- Asynchronous completions are modelled as explicit functions applied to
  the store state current at response-arrival time; interleavings of
  overlapping requests are expressed by composing completions in arrival
  order.
- Store subscribers are modelled as functions from the state to Bool,
  where the result false models a subscriber that throws; Set.forEach in
  the store propagates such an exception, aborting the iteration.
-/

/-- Lexicographic comparison of character lists by code point, modelling
the default JavaScript string comparison used by Array.prototype.sort. -/
def lexLeb : List Char → List Char → Bool
  | [], _ => true
  | _ :: _, [] => false
  | a :: as, b :: bs =>
    if a.toNat < b.toNat then true
    else if b.toNat < a.toNat then false
    else lexLeb as bs

/-- JS-style string comparison, a ≤ b on code points. -/
def strLeb (a b : String) : Bool := lexLeb a.data b.data

theorem lexLeb_refl (l : List Char) : lexLeb l l = true := by
  induction l with
  | nil => rfl
  | cons a as ih => simp [lexLeb, Nat.lt_irrefl, ih]

theorem lexLeb_total (a b : List Char) : lexLeb a b = true ∨ lexLeb b a = true := by
  induction a generalizing b with
  | nil => exact Or.inl rfl
  | cons x xs ih =>
    cases b with
    | nil => exact Or.inr rfl
    | cons y ys =>
      by_cases h1 : x.toNat < y.toNat
      · exact Or.inl (by simp [lexLeb, h1])
      · by_cases h2 : y.toNat < x.toNat
        · exact Or.inr (by simp [lexLeb, h2])
        · rcases ih ys with h | h
          · exact Or.inl (by simp [lexLeb, h1, h2, h])
          · exact Or.inr (by simp [lexLeb, h1, h2, h])

theorem lexLeb_trans (a b c : List Char) (h1 : lexLeb a b = true)
    (h2 : lexLeb b c = true) : lexLeb a c = true := by
  induction a generalizing b c with
  | nil => rfl
  | cons x xs ih =>
    cases b with
    | nil => simp [lexLeb] at h1
    | cons y ys =>
      cases c with
      | nil => simp [lexLeb] at h2
      | cons z zs =>
        simp only [lexLeb] at h1 h2 ⊢
        by_cases hxy : x.toNat < y.toNat
        · by_cases hyz : y.toNat < z.toNat
          · have : x.toNat < z.toNat := Nat.lt_trans hxy hyz
            simp [this]
          · by_cases hzy : z.toNat < y.toNat
            · simp [hxy, hyz, hzy] at h2
            · have : x.toNat < z.toNat := by omega
              simp [this]
        · by_cases hyx : y.toNat < x.toNat
          · simp [hxy, hyx] at h1
          · by_cases hyz : y.toNat < z.toNat
            · have : x.toNat < z.toNat := by omega
              simp [this]
            · by_cases hzy : z.toNat < y.toNat
              · simp [hyz, hzy] at h2
              · have hxz : ¬ x.toNat < z.toNat := by omega
                have hzx : ¬ z.toNat < x.toNat := by omega
                simp only [if_neg hxy, if_neg hyx] at h1
                simp only [if_neg hyz, if_neg hzy] at h2
                simp only [if_neg hxz, if_neg hzx]
                exact ih ys zs h1 h2

theorem strLeb_refl (a : String) : strLeb a a = true := lexLeb_refl a.data

theorem strLeb_total (a b : String) : strLeb a b = true ∨ strLeb b a = true :=
  lexLeb_total a.data b.data

theorem strLeb_trans (a b c : String) (h1 : strLeb a b = true)
    (h2 : strLeb b c = true) : strLeb a c = true :=
  lexLeb_trans a.data b.data c.data h1 h2

/-- Stable insertion of one element into an ascending list, the building
block of the model of Array.prototype.sort. -/
def insertSorted (x : String) : List String → List String
  | [] => [x]
  | y :: ys => if strLeb x y then x :: y :: ys else y :: insertSorted x ys

/-- Ascending stable sort of a list of strings, modelling
Object.keys(dict).sort() with the default comparator. -/
def sortAsc : List String → List String
  | [] => []
  | x :: xs => insertSorted x (sortAsc xs)

theorem mem_insertSorted (a x : String) (l : List String) :
    a ∈ insertSorted x l ↔ a = x ∨ a ∈ l := by
  induction l with
  | nil => simp [insertSorted]
  | cons y ys ih =>
    by_cases h : strLeb x y = true
    · simp [insertSorted, h]
    · simp only [insertSorted, h]
      simp [ih]
      tauto

theorem mem_sortAsc (a : String) (l : List String) : a ∈ sortAsc l ↔ a ∈ l := by
  induction l with
  | nil => simp [sortAsc]
  | cons x xs ih => simp [sortAsc, mem_insertSorted, ih]

theorem length_insertSorted (x : String) (l : List String) :
    (insertSorted x l).length = l.length + 1 := by
  induction l with
  | nil => rfl
  | cons y ys ih =>
    by_cases h : strLeb x y = true
    · simp [insertSorted, h]
    · simp [insertSorted, h, ih]

theorem length_sortAsc (l : List String) : (sortAsc l).length = l.length := by
  induction l with
  | nil => rfl
  | cons x xs ih => simp [sortAsc, length_insertSorted, ih]

theorem pairwise_insertSorted (x : String) (l : List String)
    (h : l.Pairwise (fun a b => strLeb a b = true)) :
    (insertSorted x l).Pairwise (fun a b => strLeb a b = true) := by
  induction l with
  | nil => simp [insertSorted]
  | cons y ys ih =>
    rcases List.pairwise_cons.mp h with ⟨hy, hys⟩
    by_cases hxy : strLeb x y = true
    · simp only [insertSorted, if_pos hxy]
      refine List.pairwise_cons.mpr ⟨?_, h⟩
      intro b hb
      rcases List.mem_cons.mp hb with hb | hb
      · subst hb
        exact hxy
      · exact strLeb_trans x y b hxy (hy b hb)
    · simp only [insertSorted, if_neg hxy]
      refine List.pairwise_cons.mpr ⟨?_, ih hys⟩
      intro b hb
      rcases (mem_insertSorted b x ys).mp hb with hb | hb
      · rw [hb]
        rcases strLeb_total x y with hx | hx
        · exact absurd hx hxy
        · exact hx
      · exact hy b hb

theorem pairwise_sortAsc (l : List String) :
    (sortAsc l).Pairwise (fun a b => strLeb a b = true) := by
  induction l with
  | nil => simp [sortAsc]
  | cons x xs ih => exact pairwise_insertSorted x (sortAsc xs) ih

/-- The head of the reversed ascending sort is the greatest element: it is
a member of the original list and dominates every member. -/
theorem head_reverse_sortAsc_max (l : List String) (hl : l ≠ []) :
    (sortAsc l).reverse.headD "" ∈ l ∧
      ∀ k ∈ l, strLeb k ((sortAsc l).reverse.headD "") = true := by
  have hp := pairwise_sortAsc l
  have hrev : ((sortAsc l).reverse).Pairwise (fun a b => strLeb b a = true) :=
    List.pairwise_reverse.mpr hp
  cases hr : (sortAsc l).reverse with
  | nil =>
    exfalso
    have : (sortAsc l).length = 0 := by
      have := congrArg List.length hr
      simpa using this
    rw [length_sortAsc] at this
    exact hl (List.length_eq_zero.mp this)
  | cons h t =>
    have hmemh : h ∈ l := by
      have : h ∈ (sortAsc l).reverse := by simp [hr]
      rw [List.mem_reverse] at this
      exact (mem_sortAsc h l).mp this
    constructor
    · simpa [hr] using hmemh
    · intro k hk
      have hk2 : k ∈ (sortAsc l).reverse := by
        rw [List.mem_reverse]
        exact (mem_sortAsc k l).mpr hk
      rw [hr] at hk2 hrev
      rcases List.mem_cons.mp hk2 with hk2 | hk2
      · subst hk2
        simpa using strLeb_refl k
      · rcases List.pairwise_cons.mp hrev with ⟨hdom, _⟩
        simpa using hdom k hk2

/-- Association-list lookup with string keys, modelling property access
on a JavaScript object used as a dictionary. -/
def lookupStr {α : Type} (k : String) : List (String × α) → Option α
  | [] => none
  | (k2, v) :: rest => if k2 = k then some v else lookupStr k rest

/-! ## The reactive store, state.js (src/unnamed/part_001, first document) -/

namespace State

/-- One per-index selection record of the store.  The source initialises
each record as { hasData: false, loadedFile: "", expiry: "",
selectedExpiry: "", selectedFile: "" }; the selectedFile2 slot is created
lazily by later patches, and a missing (undefined) string field behaves
exactly like "" at every use site, so it is modelled as "". -/
structure IndexSelection where
  hasData : Bool
  loadedFile : String
  expiry : String
  selectedExpiry : String
  selectedFile : String
  selectedFile2 : String
deriving DecidableEq, Repr

/-- The record getIndexData falls back to for an unknown index:
{ hasData: false, loadedFile: "", expiry: "" }. -/
def emptySelection : IndexSelection :=
  { hasData := false, loadedFile := "", expiry := "", selectedExpiry := "",
    selectedFile := "", selectedFile2 := "" }

/-- A shallow patch for one IndexSelection record, as passed to
setIndexData: none means the key is absent from the patch object. -/
structure SelPatch where
  hasData : Option Bool := none
  loadedFile : Option String := none
  expiry : Option String := none
  selectedExpiry : Option String := none
  selectedFile : Option String := none
  selectedFile2 : Option String := none
deriving DecidableEq, Repr

/-- Spread-merge of a patch into a record:
{ ...existing, ...data } in setIndexData. -/
def applySelPatch (r : IndexSelection) (p : SelPatch) : IndexSelection :=
  { hasData := p.hasData.getD r.hasData,
    loadedFile := p.loadedFile.getD r.loadedFile,
    expiry := p.expiry.getD r.expiry,
    selectedExpiry := p.selectedExpiry.getD r.selectedExpiry,
    selectedFile := p.selectedFile.getD r.selectedFile,
    selectedFile2 := p.selectedFile2.getD r.selectedFile2 }

/-- The whole application state held by the store.  selectedBucket,
selectedCategory, selectedSubChart and gammaChartMode are absent from the
literal initial state and are added by later set calls; the three
navigation fields are modelled as Option String (none = undefined or
null) and gammaChartMode as a String where "" models undefined. -/
structure AppState where
  selectedIndex : String
  indices : List String
  indexData : List (String × IndexSelection)
  selectedBucket : Option String
  selectedCategory : Option String
  selectedSubChart : Option String
  gammaChartMode : String
  compareMode : Bool
deriving DecidableEq, Repr

/-- The literal initial state of the store. -/
def initState : AppState :=
  { selectedIndex := "Nifty",
    indices := ["Nifty", "BankNifty", "Sensex"],
    indexData :=
      [("Nifty", emptySelection), ("BankNifty", emptySelection),
       ("Sensex", emptySelection)],
    selectedBucket := none,
    selectedCategory := none,
    selectedSubChart := none,
    gammaChartMode := "",
    compareMode := false }

/-- A shallow patch for the top-level state, as passed to set: none means
the key is absent from the patch object.  For selectedSubChart the inner
Option carries the value written, which the navigation code can set to
null. -/
structure StatePatch where
  selectedIndex : Option String := none
  indices : Option (List String) := none
  indexData : Option (List (String × IndexSelection)) := none
  selectedBucket : Option String := none
  selectedCategory : Option String := none
  selectedSubChart : Option (Option String) := none
  gammaChartMode : Option String := none
  compareMode : Option Bool := none
deriving DecidableEq, Repr

/-- State.set without its notification side effect: the shallow merge
_state = { ..._state, ...patch }. -/
def set (s : AppState) (p : StatePatch) : AppState :=
  { selectedIndex := p.selectedIndex.getD s.selectedIndex,
    indices := p.indices.getD s.indices,
    indexData := p.indexData.getD s.indexData,
    selectedBucket := (p.selectedBucket.map some).getD s.selectedBucket,
    selectedCategory := (p.selectedCategory.map some).getD s.selectedCategory,
    selectedSubChart := p.selectedSubChart.getD s.selectedSubChart,
    gammaChartMode := p.gammaChartMode.getD s.gammaChartMode,
    compareMode := p.compareMode.getD s.compareMode }

/-- State.getIndexData: target = index || selectedIndex, then
_state.indexData[target] || { hasData: false, loadedFile: "", expiry: "" }. -/
def getIndexData (s : AppState) (index : Option String) : IndexSelection :=
  let target := index.getD s.selectedIndex
  (lookupStr target s.indexData).getD emptySelection

/-- Replacement of one key of the indexData dictionary, modelling
{ ..._state.indexData, [target]: v }: an existing key is overwritten in
place, a new key is appended in insertion order. -/
def setEntry (k : String) (v : IndexSelection) :
    List (String × IndexSelection) → List (String × IndexSelection)
  | [] => [(k, v)]
  | e :: rest => if e.1 = k then (k, v) :: rest else e :: setEntry k v rest

/-- State.setIndexData without its notification side effect: target =
index || selectedIndex, then the target record is spread-merged with the
patch and written back. -/
def setIndexData (s : AppState) (index : Option String) (p : SelPatch) : AppState :=
  let target := index.getD s.selectedIndex
  let existing := (lookupStr target s.indexData).getD emptySelection
  { s with indexData := setEntry target (applySelPatch existing p) s.indexData }

/-- The synchronous notification pass of the store: _listeners.forEach(fn
=> fn(_state)).  A listener is modelled as a function of the new state
returning false when it throws; forEach propagates the exception, so the
pass records the listeners actually invoked (index and argument), in
registration order, and stops right after a throwing one. -/
def notifyFrom (k : Nat) (ls : List (AppState → Bool)) (s : AppState) :
    List (Nat × AppState) :=
  match ls with
  | [] => []
  | f :: fs => if f s then (k, s) :: notifyFrom (k + 1) fs s else [(k, s)]

/-- State.set with its notification pass: merge the patch, then notify
every registered listener with the new state. -/
def setNotify (s : AppState) (p : StatePatch) (ls : List (AppState → Bool)) :
    AppState × List (Nat × AppState) :=
  let s2 := set s p
  (s2, notifyFrom 0 ls s2)

/-- State.setIndexData with its notification pass. -/
def setIndexDataNotify (s : AppState) (index : Option String) (p : SelPatch)
    (ls : List (AppState → Bool)) : AppState × List (Nat × AppState) :=
  let s2 := setIndexData s index p
  (s2, notifyFrom 0 ls s2)

theorem lookupStr_setEntry_ne (l : List (String × IndexSelection))
    (k j : String) (v : IndexSelection) (h : j ≠ k) :
    lookupStr j (setEntry k v l) = lookupStr j l := by
  have hkj : ¬ k = j := fun hh => h hh.symm
  induction l with
  | nil => simp [setEntry, lookupStr, hkj]
  | cons e rest ih =>
    obtain ⟨k2, v2⟩ := e
    by_cases he : k2 = k
    · have hej : ¬ k2 = j := by
        rw [he]
        exact hkj
      simp only [setEntry, if_pos he, lookupStr, if_neg hkj, if_neg hej]
    · simp only [setEntry, if_neg he, lookupStr]
      by_cases hj : k2 = j
      · rw [if_pos hj, if_pos hj]
      · rw [if_neg hj, if_neg hj]
        exact ih

theorem lookupStr_setEntry_self (l : List (String × IndexSelection))
    (k : String) (v : IndexSelection) :
    lookupStr k (setEntry k v l) = some v := by
  induction l with
  | nil => simp [setEntry, lookupStr]
  | cons e rest ih =>
    obtain ⟨k2, v2⟩ := e
    by_cases he : k2 = k
    · simp [setEntry, if_pos he, lookupStr]
    · simp only [setEntry, if_neg he, lookupStr, if_neg he]
      exact ih

/-- Reading any other index is unaffected by setIndexData. -/
theorem getIndexData_setIndexData_ne (s : AppState) (i : String) (p : SelPatch)
    (j : String) (h : j ≠ i) :
    getIndexData (setIndexData s (some i) p) (some j) = getIndexData s (some j) := by
  simp only [getIndexData, setIndexData, Option.getD_some]
  rw [lookupStr_setEntry_ne _ _ _ _ h]

/-- Reading the patched index returns the spread-merged record. -/
theorem getIndexData_setIndexData_self (s : AppState) (i : String) (p : SelPatch) :
    getIndexData (setIndexData s (some i) p) (some i)
      = applySelPatch (getIndexData s (some i)) p := by
  simp only [getIndexData, setIndexData, Option.getD_some]
  rw [lookupStr_setEntry_self]
  rfl

end State

/-! ## The catalog-refresh controller, src/frontend/js/app.js -/

/-- The per-index file catalog returned by GET /api/files/{index}: the
expiry → [filename, ...] dictionary (data.files || \x7b\x7d), in server
key order. -/
abbrev Catalog : Type := List (String × List String)

/-- Truthiness fallback a || b on JS strings: "" and undefined are the
falsy strings. -/
def jsOr (a b : String) : String := if a = "" then b else a

namespace App

/-- Object.keys(filesDict).sort().reverse(): the expiry keys in
descending lexical order. -/
def sortedExpiries (filesDict : Catalog) : List String :=
  (sortAsc (filesDict.map Prod.fst)).reverse

/-- selExpiry = idxData.selectedExpiry || (expiries.length ? expiries[0] : ""). -/
def resolveExpiry (filesDict : Catalog) (idxData : State.IndexSelection) : String :=
  jsOr idxData.selectedExpiry ((sortedExpiries filesDict).headD "")

/-- files = filesDict[selExpiry] || []. -/
def filesFor (filesDict : Catalog) (selExpiry : String) : List String :=
  (lookupStr selExpiry filesDict).getD []

/-- selFile = idxData.selectedFile || (files.length ? files[0] : ""). -/
def resolveFile (files : List String) (idxData : State.IndexSelection) : String :=
  jsOr idxData.selectedFile (files.headD "")

/-- selFile2 = idxData.selectedFile2 ||
(files.length > 1 ? files[1] : (files.length ? files[0] : "")). -/
def resolveFile2 (files : List String) (idxData : State.IndexSelection) : String :=
  jsOr idxData.selectedFile2
    (if 1 < files.length then files.getD 1 "" else files.headD "")

/-- The response-arrival half of _refreshFileControls(index): everything
the controller does once await API.getFiles(index) has produced a
catalog, applied to the store state current at that moment.  It reads the
per-index record, resolves the three selections and unconditionally
persists them with State.setIndexData; the function has no sequence
number, generation counter or any other staleness input. -/
def refreshComplete (filesDict : Catalog) (index : String) (s : State.AppState) :
    State.AppState :=
  let idxData := State.getIndexData s (some index)
  let selExpiry := resolveExpiry filesDict idxData
  let files := filesFor filesDict selExpiry
  let selFile := resolveFile files idxData
  let selFile2 := resolveFile2 files idxData
  State.setIndexData s (some index)
    { selectedExpiry := some selExpiry, selectedFile := some selFile,
      selectedFile2 := some selFile2 }

/-- A whole _refreshFileControls(index) invocation, given the outcome of
its fetch.  The catch block only logs (console.error) and rethrows
nothing, so the caller always observes a normal completion: the second
component is the error propagated to the caller, and it is always none. -/
def refreshFileControls (fetched : Except String Catalog) (index : String)
    (s : State.AppState) : State.AppState × Option String :=
  match fetched with
  | Except.ok filesDict => (refreshComplete filesDict index s, none)
  | Except.error _ => (s, none)

/-- The index-change handler in _wireControls: State.set({ selectedIndex:
newIndex }) followed by updateTopbar(), whose dropdown half is
_refreshFileControls(selectedIndex).  The render that follows writes no
store state. -/
def switchIndex (fetched : Except String Catalog) (newIndex : String)
    (s : State.AppState) : State.AppState :=
  let s1 := State.set s { selectedIndex := some newIndex }
  (refreshFileControls fetched newIndex s1).1

end App

/-! ## The chart loader, Charts.fetchAndRender (src/unnamed/part_005) -/

/-- What a chart container of the page can display. -/
inductive PanelContent where
  | placeholder
  | loading
  | rendered (figureJson : String)
  | failed (message : String)
deriving DecidableEq, Repr

/-- The rendering surface: the chart containers of the current page by
element id. -/
abbrev Surface : Type := List (String × PanelContent)

/-- One HTTP request to the chart endpoint
GET /api/charts/{index}/{chartType}?mode={mode}. -/
structure ChartRequest where
  index : String
  chartType : String
  containerId : String
  mode : String
deriving DecidableEq, Repr

namespace Charts

/-- Write new content into the container with the given element id;
document.getElementById returning null (no such container) makes the
write a no-op. -/
def updatePanel (surf : Surface) (containerId : String) (c : PanelContent) : Surface :=
  List.map (fun e => if e.1 = containerId then (e.1, c) else e) surf

/-- Charts.showLoading. -/
def showLoading (surf : Surface) (containerId : String) : Surface :=
  updatePanel surf containerId PanelContent.loading

/-- Charts.render: hand the fetched figure payload to the surface bound
to the container.  The JSON parse and the plotting-library call are
display details below this model; what matters here is that the container
is overwritten with content derived from the payload. -/
def render (surf : Surface) (containerId : String) (figureJson : String) : Surface :=
  updatePanel surf containerId (PanelContent.rendered figureJson)

/-- Charts.fetchAndRender(index, chartType, containerId, mode), given the
outcome of await API.getChart: showLoading at issue time, then either
render(containerId, data.figure) or the inline error placeholder.  The
completion consults neither the store nor any captured selection token:
its inputs are exactly the call arguments and the response.  The second
component is the single network request the call issues. -/
def fetchAndRender (index chartType containerId mode : String)
    (response : Except String String) (surf : Surface) : Surface × ChartRequest :=
  let surf1 := showLoading surf containerId
  (match response with
   | Except.ok figureJson => render surf1 containerId figureJson
   | Except.error msg => updatePanel surf1 containerId (PanelContent.failed msg),
   { index := index, chartType := chartType, containerId := containerId, mode := mode })

theorem lookupStr_updatePanel_self (surf : Surface) (cid : String) (c : PanelContent) :
    lookupStr cid (updatePanel surf cid c) = (lookupStr cid surf).map (fun _ => c) := by
  induction surf with
  | nil => rfl
  | cons e rest ih =>
    obtain ⟨k2, v2⟩ := e
    by_cases hk : k2 = cid
    · subst hk
      have hhead :
          (if ((k2, v2) : String × PanelContent).1 = k2
            then (((k2, v2) : String × PanelContent).1, c) else (k2, v2))
            = (k2, c) := by
        simp
      simp only [updatePanel, List.map_cons, hhead]
      simp [lookupStr]
    · simp only [updatePanel, List.map_cons]
      have hhead :
          (if ((k2, v2) : String × PanelContent).1 = cid
            then (((k2, v2) : String × PanelContent).1, c) else (k2, v2))
            = (k2, v2) := by
        simp [hk]
      rw [hhead]
      simp only [lookupStr, if_neg hk]
      exact ih

end Charts

/-! ## The hierarchical dashboard page, src/unnamed/part_004 -/

/-- One chart descriptor { key, label, id } of the navigation model. -/
structure ChartDesc where
  key : String
  label : String
  id : String
deriving DecidableEq, Repr

/-- expr || null on a string-or-undefined expression, as in
charts[0]?.id || null. -/
def jsOrNull (v : Option String) : Option String :=
  match v with
  | none => none
  | some s => if s = "" then none else some s

namespace DashboardPage

/-- The static ANALYSIS_STRUCTURE literal of src/unnamed/part_004:
bucket → category → ordered chart descriptors, in declaration order. -/
def ANALYSIS_STRUCTURE : List (String × List (String × List ChartDesc)) :=
  [("Exposure",
     [("Gamma",
        [{ key := "gex", label := "Gamma Exposure", id := "chart-gex" },
         { key := "cum_gex", label := "Cumulative GEX", id := "chart-cum-gex" }]),
      ("Delta", []),
      ("Vanna", [])]),
   ("Others",
     [("Volatility",
        [{ key := "iv_smile", label := "IV Smile", id := "chart-iv-smile" },
         { key := "rr_bf", label := "RR & BF", id := "chart-rr-bf" }]),
      ("Quant",
        [{ key := "quant_power", label := "Quant Power", id := "chart-quant-power" },
         { key := "regime", label := "Dealer Regime", id := "chart-regime" }])])]

/-- ANALYSIS_STRUCTURE[bucket]?.[category] || []: the chart list of a
(bucket, category) pair of the current selection. -/
def chartsOf (bucket category : Option String) : List ChartDesc :=
  match bucket, category with
  | some b, some c =>
    match lookupStr b ANALYSIS_STRUCTURE with
    | none => []
    | some cats => (lookupStr c cats).getD []
  | _, _ => []

/-- One user interaction handled by _wireAnalysisNav. -/
inductive NavEvent where
  | bucketClick (b : String)
  | categoryClick (c : String)
  | subChartClick (i : String)
  | modeClick (m : String)
deriving DecidableEq, Repr

/-- The click dispatch of _wireAnalysisNav, as a transition on the store
state.  A lookup that would throw in JS (unknown bucket, category not
under the current bucket) happens before any State.set call, so such a
click mutates nothing and is modelled as the identity.  A sub-chart
button exists in the rendered markup only for the charts of the current
(bucket, category), so a subChartClick on any other id has no handler to
run and is also the identity. -/
def navStep (s : State.AppState) (e : NavEvent) : State.AppState :=
  match e with
  | NavEvent.bucketClick b =>
    match lookupStr b ANALYSIS_STRUCTURE with
    | none => s
    | some cats =>
      match cats with
      | [] => s
      | (firstCat, charts) :: _ =>
        State.set s
          { selectedBucket := some b, selectedCategory := some firstCat,
            selectedSubChart := some (jsOrNull (charts.head?.map ChartDesc.id)) }
  | NavEvent.categoryClick c =>
    match s.selectedBucket with
    | none => s
    | some b =>
      match lookupStr b ANALYSIS_STRUCTURE with
      | none => s
      | some cats =>
        match lookupStr c cats with
        | none => s
        | some charts =>
          State.set s
            { selectedCategory := some c,
              selectedSubChart := some (jsOrNull (charts.head?.map ChartDesc.id)) }
  | NavEvent.subChartClick i =>
    if i ∈ (chartsOf s.selectedBucket s.selectedCategory).map ChartDesc.id then
      State.set s { selectedSubChart := some (some i) }
    else s
  | NavEvent.modeClick m => State.set s { gammaChartMode := some m }

/-- The gamma-mode resolution of DashboardPage.render: mode = (chart.key
=== "gex" || chart.key === "cum_gex") ? st.gammaChartMode : "net". -/
def effectiveMode (key stored : String) : String :=
  if key = "gex" ∨ key = "cum_gex" then stored else "net"

end DashboardPage

/-! ## The tabbed dashboard page, src/frontend/js/dashboard.js -/

namespace DashboardV1

/-- The static ANALYSIS_STRUCTURE literal of src/frontend/js/dashboard.js
(the variant whose Gamma category holds a single chart). -/
def ANALYSIS_STRUCTURE : List (String × List (String × List ChartDesc)) :=
  [("Exposure",
     [("Gamma",
        [{ key := "gex", label := "Gamma Exposure", id := "chart-gex" }]),
      ("Delta", []),
      ("Vanna", [])]),
   ("Others",
     [("Volatility",
        [{ key := "iv_smile", label := "IV Smile", id := "chart-iv-smile" },
         { key := "rr_bf", label := "RR & BF", id := "chart-rr-bf" }]),
      ("Quant",
        [{ key := "quant_power", label := "Quant Power", id := "chart-quant-power" },
         { key := "regime", label := "Dealer Regime", id := "chart-regime" }])])]

/-- The local state a _wireTabNav click handler works on: the selection
read from the store, the mutable _loadedCharts set and, as a ghost field,
the log of network requests issued so far. -/
structure DashState where
  selectedBucket : Option String
  selectedCategory : Option String
  gammaChartMode : String
  loadedCharts : List String
  requests : List ChartRequest
deriving DecidableEq, Repr

/-- ANALYSIS_STRUCTURE[st.selectedBucket][st.selectedCategory] inside the
tab-click handler; a lookup that would throw in JS happens before any
mutation, giving the same no-op click as an empty chart list. -/
def activeCharts (st : DashState) : List ChartDesc :=
  match st.selectedBucket, st.selectedCategory with
  | some b, some c =>
    match lookupStr b ANALYSIS_STRUCTURE with
    | none => []
    | some cats => (lookupStr c cats).getD []
  | _, _ => []

/-- The per-chart mode of the lazy-load branch: (chart.key === "gex") ?
State.get().gammaChartMode : "net". -/
def effectiveMode (key stored : String) : String :=
  if key = "gex" then stored else "net"

/-- One tab click handled by _wireTabNav: when targetId is not in the
_loadedCharts set, look up the chart across the active bucket/category,
issue the single Charts.fetchAndRender request and add targetId to the
set; otherwise only toggle css classes. -/
def clickTab (index : String) (st : DashState) (targetId : String) : DashState :=
  if targetId ∈ st.loadedCharts then st
  else
    match (activeCharts st).find? (fun ch => decide (ch.id = targetId)) with
    | none => st
    | some ch =>
      { st with
        requests := st.requests ++
          [{ index := index, chartType := ch.key, containerId := targetId,
             mode := effectiveMode ch.key st.gammaChartMode }],
        loadedCharts := st.loadedCharts ++ [targetId] }

end DashboardV1

/-- The exposure family of chart keys: the charts that respect the
net/raw display-mode toggle. -/
def EXPOSURE_FAMILY : List String := ["gex", "cum_gex"]

/-! ## Navigation invariant (claim C5) -/

/-- Helper: one _wireAnalysisNav click preserves validity of
selectedSubChart for the selected (bucket, category). -/
theorem navStep_preserves_subChart (s : State.AppState) (e : DashboardPage.NavEvent)
    (h : ∀ i, s.selectedSubChart = some i →
      i ∈ (DashboardPage.chartsOf s.selectedBucket s.selectedCategory).map ChartDesc.id) :
    ∀ i, (DashboardPage.navStep s e).selectedSubChart = some i →
      i ∈ (DashboardPage.chartsOf (DashboardPage.navStep s e).selectedBucket
            (DashboardPage.navStep s e).selectedCategory).map ChartDesc.id := by
  cases e with
  | bucketClick b =>
    intro i hi
    cases hlb : lookupStr b DashboardPage.ANALYSIS_STRUCTURE with
    | none =>
      have hstep : DashboardPage.navStep s (DashboardPage.NavEvent.bucketClick b) = s := by
        simp only [DashboardPage.navStep, hlb]
      rw [hstep] at hi ⊢
      exact h i hi
    | some cats =>
      cases cats with
      | nil =>
        have hstep : DashboardPage.navStep s (DashboardPage.NavEvent.bucketClick b) = s := by
          simp only [DashboardPage.navStep, hlb]
        rw [hstep] at hi ⊢
        exact h i hi
      | cons hd tl =>
        obtain ⟨firstCat, charts⟩ := hd
        have hstep : DashboardPage.navStep s (DashboardPage.NavEvent.bucketClick b)
            = State.set s
                { selectedBucket := some b, selectedCategory := some firstCat,
                  selectedSubChart := some (jsOrNull (charts.head?.map ChartDesc.id)) } := by
          simp only [DashboardPage.navStep, hlb]
        rw [hstep] at hi ⊢
        have hi2 : jsOrNull (charts.head?.map ChartDesc.id) = some i := hi
        show i ∈ (DashboardPage.chartsOf (some b) (some firstCat)).map ChartDesc.id
        cases charts with
        | nil => simp [jsOrNull] at hi2
        | cons c0 cs =>
          by_cases hc0 : c0.id = ""
          · simp [jsOrNull, hc0] at hi2
          · simp [jsOrNull, hc0] at hi2
            rw [← hi2]
            simp only [DashboardPage.chartsOf]
            rw [hlb]
            have hfc : lookupStr firstCat ((firstCat, c0 :: cs) :: tl) = some (c0 :: cs) := by
              simp [lookupStr]
            show c0.id ∈ List.map ChartDesc.id
              ((lookupStr firstCat ((firstCat, c0 :: cs) :: tl)).getD [])
            rw [hfc]
            exact List.mem_map_of_mem ChartDesc.id (List.mem_cons_self c0 cs)
  | categoryClick c =>
    intro i hi
    cases hsb : s.selectedBucket with
    | none =>
      have hstep : DashboardPage.navStep s (DashboardPage.NavEvent.categoryClick c) = s := by
        simp only [DashboardPage.navStep, hsb]
      rw [hstep] at hi ⊢
      exact h i hi
    | some b =>
      cases hlb : lookupStr b DashboardPage.ANALYSIS_STRUCTURE with
      | none =>
        have hstep : DashboardPage.navStep s (DashboardPage.NavEvent.categoryClick c) = s := by
          simp only [DashboardPage.navStep, hsb, hlb]
        rw [hstep] at hi ⊢
        exact h i hi
      | some cats =>
        cases hlc : lookupStr c cats with
        | none =>
          have hstep : DashboardPage.navStep s (DashboardPage.NavEvent.categoryClick c) = s := by
            simp only [DashboardPage.navStep, hsb, hlb, hlc]
          rw [hstep] at hi ⊢
          exact h i hi
        | some charts =>
          have hstep : DashboardPage.navStep s (DashboardPage.NavEvent.categoryClick c)
              = State.set s
                  { selectedCategory := some c,
                    selectedSubChart := some (jsOrNull (charts.head?.map ChartDesc.id)) } := by
            simp only [DashboardPage.navStep, hsb, hlb, hlc]
          rw [hstep] at hi ⊢
          have hi2 : jsOrNull (charts.head?.map ChartDesc.id) = some i := hi
          show i ∈ (DashboardPage.chartsOf s.selectedBucket (some c)).map ChartDesc.id
          rw [hsb]
          cases charts with
          | nil => simp [jsOrNull] at hi2
          | cons c0 cs =>
            by_cases hc0 : c0.id = ""
            · simp [jsOrNull, hc0] at hi2
            · simp [jsOrNull, hc0] at hi2
              rw [← hi2]
              simp only [DashboardPage.chartsOf]
              rw [hlb]
              show c0.id ∈ List.map ChartDesc.id ((lookupStr c cats).getD [])
              rw [hlc]
              exact List.mem_map_of_mem ChartDesc.id (List.mem_cons_self c0 cs)
  | subChartClick i0 =>
    intro i hi
    by_cases hin : i0 ∈ (DashboardPage.chartsOf s.selectedBucket
        s.selectedCategory).map ChartDesc.id
    · have hstep : DashboardPage.navStep s (DashboardPage.NavEvent.subChartClick i0)
          = State.set s { selectedSubChart := some (some i0) } := by
        rw [DashboardPage.navStep]
        exact if_pos hin
      rw [hstep] at hi ⊢
      have hi2 : some i0 = some i := hi
      injection hi2 with hii
      subst hii
      show i0 ∈ (DashboardPage.chartsOf s.selectedBucket s.selectedCategory).map ChartDesc.id
      exact hin
    · have hstep : DashboardPage.navStep s (DashboardPage.NavEvent.subChartClick i0) = s := by
        rw [DashboardPage.navStep]
        exact if_neg hin
      rw [hstep] at hi ⊢
      exact h i hi
  | modeClick m =>
    intro i hi
    exact h i hi

/-- Helper: the invariant is preserved along any event sequence. -/
theorem navFold_preserves_subChart (evs : List DashboardPage.NavEvent)
    (s : State.AppState)
    (h : ∀ i, s.selectedSubChart = some i →
      i ∈ (DashboardPage.chartsOf s.selectedBucket s.selectedCategory).map ChartDesc.id) :
    ∀ i, (List.foldl DashboardPage.navStep s evs).selectedSubChart = some i →
      i ∈ (DashboardPage.chartsOf
            (List.foldl DashboardPage.navStep s evs).selectedBucket
            (List.foldl DashboardPage.navStep s evs).selectedCategory).map
          ChartDesc.id := by
  induction evs generalizing s with
  | nil => simpa using h
  | cons e rest ih =>
    simp only [List.foldl_cons]
    exact ih (DashboardPage.navStep s e) (navStep_preserves_subChart s e h)

/-- C5: after any sequence of bucket, category, sub-chart and mode clicks
starting from the initial store state, selectedSubChart is either absent
or the id of a chart in the chart list of the currently selected
(bucket, category) of the navigation model. -/
theorem selectedSubChart_valid_invariant (evs : List DashboardPage.NavEvent)
    (i : String)
    (h : (List.foldl DashboardPage.navStep State.initState evs).selectedSubChart
        = some i) :
    i ∈ (DashboardPage.chartsOf
          (List.foldl DashboardPage.navStep State.initState evs).selectedBucket
          (List.foldl DashboardPage.navStep State.initState evs).selectedCategory).map
        ChartDesc.id := by
  refine navFold_preserves_subChart evs State.initState ?_ i h
  intro j hj
  cases hj

/-- C5 witness: after clicking the Exposure bucket the selected sub-chart
is chart-gex, a member of the Gamma chart list. -/
theorem selectedSubChart_valid_invariant_witness :
    (List.foldl DashboardPage.navStep State.initState
        [DashboardPage.NavEvent.bucketClick "Exposure"]).selectedSubChart
      = some "chart-gex" ∧
    "chart-gex" ∈ (DashboardPage.chartsOf
        (List.foldl DashboardPage.navStep State.initState
          [DashboardPage.NavEvent.bucketClick "Exposure"]).selectedBucket
        (List.foldl DashboardPage.navStep State.initState
          [DashboardPage.NavEvent.bucketClick "Exposure"]).selectedCategory).map
      ChartDesc.id :=
  ⟨by decide,
   selectedSubChart_valid_invariant
     [DashboardPage.NavEvent.bucketClick "Exposure"] "chart-gex" (by decide)⟩

/-! ## Chart-load deduplication (claim C6) -/

/-- C6: with the _loadedCharts set not cleared in between, clicking the
same tab twice is idempotent, and when the first click fires (target not
yet loaded, chart found in the active bucket/category) the two clicks
together issue exactly one network request to the chart endpoint. -/
theorem clickTab_single_request (index : String) (st : DashboardV1.DashState)
    (t : String) :
    DashboardV1.clickTab index (DashboardV1.clickTab index st t) t
        = DashboardV1.clickTab index st t ∧
    (t ∉ st.loadedCharts →
      ∀ ch : ChartDesc,
        (DashboardV1.activeCharts st).find? (fun x => decide (x.id = t)) = some ch →
          (DashboardV1.clickTab index (DashboardV1.clickTab index st t) t).requests
            = st.requests ++
              [{ index := index, chartType := ch.key, containerId := t,
                 mode := DashboardV1.effectiveMode ch.key st.gammaChartMode }]) := by
  by_cases hmem : t ∈ st.loadedCharts
  · constructor
    · simp [DashboardV1.clickTab, hmem]
    · intro hnot
      exact absurd hmem hnot
  · cases hfind : (DashboardV1.activeCharts st).find? (fun x => decide (x.id = t)) with
    | none =>
      have hclick : DashboardV1.clickTab index st t = st := by
        simp [DashboardV1.clickTab, hmem, hfind]
      constructor
      · rw [hclick, hclick]
      · intro hnot ch hch
        exact Option.noConfusion hch
    | some ch =>
      have hclick : DashboardV1.clickTab index st t
          = { st with
              requests := st.requests ++
                [{ index := index, chartType := ch.key, containerId := t,
                   mode := DashboardV1.effectiveMode ch.key st.gammaChartMode }],
              loadedCharts := st.loadedCharts ++ [t] } := by
        simp [DashboardV1.clickTab, hmem, hfind]
      have hmem2 : t ∈ st.loadedCharts ++ [t] := by simp
      have hsecond : DashboardV1.clickTab index (DashboardV1.clickTab index st t) t
          = DashboardV1.clickTab index st t := by
        rw [hclick]
        simp [DashboardV1.clickTab, hmem2]
      constructor
      · exact hsecond
      · intro hnot ch2 hch2
        injection hch2 with hcc
        subst hcc
        rw [hsecond, hclick]

/-- C6 witness: on the Quant category, clicking the Dealer Regime tab
twice issues exactly one request, for chart type regime in mode net. -/
theorem clickTab_single_request_witness :
    DashboardV1.clickTab "Nifty"
        (DashboardV1.clickTab "Nifty"
          { selectedBucket := some "Others", selectedCategory := some "Quant",
            gammaChartMode := "raw", loadedCharts := [], requests := [] }
          "chart-regime") "chart-regime"
      = DashboardV1.clickTab "Nifty"
          { selectedBucket := some "Others", selectedCategory := some "Quant",
            gammaChartMode := "raw", loadedCharts := [], requests := [] }
          "chart-regime" ∧
    (DashboardV1.clickTab "Nifty"
        (DashboardV1.clickTab "Nifty"
          { selectedBucket := some "Others", selectedCategory := some "Quant",
            gammaChartMode := "raw", loadedCharts := [], requests := [] }
          "chart-regime") "chart-regime").requests
      = [] ++
        [{ index := "Nifty", chartType := "regime", containerId := "chart-regime",
           mode := DashboardV1.effectiveMode "regime" "raw" }] :=
  ⟨(clickTab_single_request "Nifty"
      { selectedBucket := some "Others", selectedCategory := some "Quant",
        gammaChartMode := "raw", loadedCharts := [], requests := [] }
      "chart-regime").1,
   (clickTab_single_request "Nifty"
      { selectedBucket := some "Others", selectedCategory := some "Quant",
        gammaChartMode := "raw", loadedCharts := [], requests := [] }
      "chart-regime").2 (by decide)
     { key := "regime", label := "Dealer Regime", id := "chart-regime" } (by decide)⟩

/-! ## Per-index frame property (claim C7) -/

/-- C7: setIndexData on index i leaves the record of every other index j
unchanged, and the whole index-switch transition (State.set of
selectedIndex followed by the catalog refresh of the new index, whether
its fetch succeeds or fails) never mutates the record of any index other
than the newly selected one. -/
theorem setIndexData_frame (s : State.AppState) (i j : String)
    (p : State.SelPatch) (fetched : Except String Catalog) (h : j ≠ i) :
    State.getIndexData (State.setIndexData s (some i) p) (some j)
        = State.getIndexData s (some j) ∧
    State.getIndexData (App.switchIndex fetched i s) (some j)
        = State.getIndexData s (some j) := by
  constructor
  · exact State.getIndexData_setIndexData_ne s i p j h
  · cases fetched with
    | error e =>
      rfl
    | ok filesDict =>
      have h1 : State.getIndexData
            (App.refreshComplete filesDict i (State.set s { selectedIndex := some i }))
            (some j)
          = State.getIndexData (State.set s { selectedIndex := some i }) (some j) :=
        State.getIndexData_setIndexData_ne _ i _ j h
      have h2 : State.getIndexData (State.set s { selectedIndex := some i }) (some j)
          = State.getIndexData s (some j) := rfl
      exact h1.trans h2

/-- C7 witness: switching to BankNifty (and patching its record) leaves
the Nifty record untouched. -/
theorem setIndexData_frame_witness :
    State.getIndexData
        (State.setIndexData State.initState (some "BankNifty")
          { selectedFile := some "t9" }) (some "Nifty")
      = State.getIndexData State.initState (some "Nifty") ∧
    State.getIndexData
        (App.switchIndex (Except.ok [("2024-02-01", ["t3"])]) "BankNifty"
          State.initState) (some "Nifty")
      = State.getIndexData State.initState (some "Nifty") :=
  setIndexData_frame State.initState "BankNifty" "Nifty"
    { selectedFile := some "t9" } (Except.ok [("2024-02-01", ["t3"])]) (by decide)

/-! ## Non-exposure charts ignore the gamma mode (claim C9) -/

/-- C9: for every chart key outside the exposure family the effective
mode handed to the chart request is net at both load sites (the
DashboardPage.render initial load of part_004 and the _wireTabNav lazy
load of dashboard.js), whatever gammaChartMode the store holds; in
particular storing raw changes nothing for such a chart. -/
theorem nonExposure_mode_forced_net (key : String) (h : key ∉ EXPOSURE_FAMILY)
    (stored : String) :
    DashboardPage.effectiveMode key stored = "net" ∧
    DashboardV1.effectiveMode key stored = "net" ∧
    DashboardPage.effectiveMode key stored = DashboardPage.effectiveMode key "net" ∧
    DashboardV1.effectiveMode key stored = DashboardV1.effectiveMode key "net" := by
  have h1 : ¬ key = "gex" := by
    intro hk
    exact h (by rw [hk]; simp [EXPOSURE_FAMILY])
  have h2 : ¬ key = "cum_gex" := by
    intro hk
    exact h (by rw [hk]; simp [EXPOSURE_FAMILY])
  refine ⟨?_, ?_, ?_, ?_⟩ <;>
    simp [DashboardPage.effectiveMode, DashboardV1.effectiveMode, h1, h2]

/-- C9 witness: the IV Smile chart is requested in mode net even with
gammaChartMode = raw. -/
theorem nonExposure_mode_forced_net_witness :
    DashboardPage.effectiveMode "iv_smile" "raw" = "net" ∧
    DashboardV1.effectiveMode "iv_smile" "raw" = "net" ∧
    DashboardPage.effectiveMode "iv_smile" "raw"
      = DashboardPage.effectiveMode "iv_smile" "net" ∧
    DashboardV1.effectiveMode "iv_smile" "raw"
      = DashboardV1.effectiveMode "iv_smile" "net" :=
  nonExposure_mode_forced_net "iv_smile" (by decide) "raw"

/-! ## Subscriber notification (claims C4 and C10) -/

/-- Helper: when every listener succeeds on the new state, the
notification pass calls each of them once, in order. -/
theorem notifyFrom_all_ok (ls : List (State.AppState → Bool)) (s : State.AppState)
    (h : ∀ g ∈ ls, g s = true) (k : Nat) :
    State.notifyFrom k ls s = (List.range' k ls.length).map (fun n => (n, s)) := by
  induction ls generalizing k with
  | nil => simp [State.notifyFrom]
  | cons f fs ih =>
    have hf : f s = true := h f (List.mem_cons_self f fs)
    simp only [State.notifyFrom, if_pos hf, List.length_cons]
    have hr : List.range' k (fs.length + 1) = k :: List.range' (k + 1) fs.length := rfl
    rw [hr, List.map_cons]
    congr 1
    exact ih (fun g hg => h g (List.mem_cons_of_mem f hg)) (k + 1)

/-- Helper: a throwing listener cuts the notification pass right after
itself, whatever is registered behind it. -/
theorem notifyFrom_cut (ls1 ls2 : List (State.AppState → Bool))
    (f : State.AppState → Bool) (s : State.AppState)
    (h1 : ∀ g ∈ ls1, g s = true) (hf : f s = false) (k : Nat) :
    State.notifyFrom k (ls1 ++ f :: ls2) s
      = (List.range' k (ls1.length + 1)).map (fun n => (n, s)) := by
  induction ls1 generalizing k with
  | nil => simp [State.notifyFrom, hf, List.range']
  | cons g gs ih =>
    have hg : g s = true := h1 g (List.mem_cons_self g gs)
    simp only [List.cons_append, State.notifyFrom, if_pos hg, List.length_cons]
    have hr : List.range' k (gs.length + 1 + 1)
        = k :: List.range' (k + 1) (gs.length + 1) := rfl
    rw [hr, List.map_cons]
    congr 1
    exact ih (fun g2 hg2 => h1 g2 (List.mem_cons_of_mem g hg2)) (k + 1)

/-- C4 (amended): set(patch) shallow-merges and then synchronously
notifies subscribers with the new state in registration order; when no
subscriber throws, every subscriber is notified exactly once, but every
subscriber registered after a throwing one is never notified, whatever
it is. -/
theorem set_notification_order :
    (∀ (ls : List (State.AppState → Bool)) (s : State.AppState) (p : State.StatePatch),
      (∀ g ∈ ls, g (State.set s p) = true) →
      (State.setNotify s p ls).2
        = (List.range ls.length).map (fun n => (n, State.set s p))) ∧
    (∀ (ls1 ls2 : List (State.AppState → Bool)) (f : State.AppState → Bool)
        (s : State.AppState) (p : State.StatePatch),
      (∀ g ∈ ls1, g (State.set s p) = true) → f (State.set s p) = false →
      (State.setNotify s p (ls1 ++ f :: ls2)).2
        = (List.range (ls1.length + 1)).map (fun n => (n, State.set s p))) := by
  constructor
  · intro ls s p h
    show State.notifyFrom 0 ls (State.set s p)
      = (List.range ls.length).map (fun n => (n, State.set s p))
    rw [List.range_eq_range']
    exact notifyFrom_all_ok ls (State.set s p) h 0
  · intro ls1 ls2 f s p h1 hf
    show State.notifyFrom 0 (ls1 ++ f :: ls2) (State.set s p)
      = (List.range (ls1.length + 1)).map (fun n => (n, State.set s p))
    rw [List.range_eq_range']
    exact notifyFrom_cut ls1 ls2 f (State.set s p) h1 hf 0

/-- C4 witness: a single well-behaved subscriber is notified exactly once
with the merged state. -/
theorem set_notification_order_witness :
    (State.setNotify State.initState {} [fun _ => true]).2
      = (List.range 1).map (fun n => (n, State.set State.initState {})) :=
  set_notification_order.1 [fun _ => true] State.initState {}
    (by
      intro g hg
      rw [List.mem_singleton] at hg
      subst hg
      rfl)

/-- C4 counterexample: with a throwing subscriber registered first and a
healthy one second, set notifies only subscriber 0; subscriber 1, though
registered, is never notified, refuting the per-subscriber isolation the
claim asserts. -/
theorem throwing_subscriber_blocks_later :
    ((State.setNotify State.initState { compareMode := some true }
        [fun _ => false, fun _ => true]).2.map Prod.fst) = [0] ∧
    (1 : Nat) ∉ ((State.setNotify State.initState { compareMode := some true }
        [fun _ => false, fun _ => true]).2.map Prod.fst) :=
  ⟨rfl, by decide⟩

/-- C10 (amended): the store performs no change detection: whenever no
subscriber throws, every call to set or setIndexData notifies every
registered subscriber exactly once with the new state, in registration
order, for every patch — including the empty patch, which observably
changes nothing; a subscriber behind a throwing one is not notified
(settled with claim C4). -/
theorem notification_no_change_detection :
    (∀ (ls : List (State.AppState → Bool)) (s : State.AppState) (p : State.StatePatch),
      (∀ g ∈ ls, g (State.set s p) = true) →
      ((State.setNotify s p ls).2.map Prod.fst = List.range ls.length ∧
       ∀ e ∈ (State.setNotify s p ls).2, e.2 = State.set s p)) ∧
    (∀ (ls : List (State.AppState → Bool)) (s : State.AppState) (i : Option String)
        (p : State.SelPatch),
      (∀ g ∈ ls, g (State.setIndexData s i p) = true) →
      ((State.setIndexDataNotify s i p ls).2.map Prod.fst = List.range ls.length ∧
       ∀ e ∈ (State.setIndexDataNotify s i p ls).2, e.2 = State.setIndexData s i p)) ∧
    (∀ (s : State.AppState) (i j : String),
      State.getIndexData (State.setIndexData s (some i) {}) (some j)
        = State.getIndexData s (some j)) := by
  refine ⟨?_, ?_, ?_⟩
  · intro ls s p h
    have ht := notifyFrom_all_ok ls (State.set s p) h 0
    constructor
    · show (State.notifyFrom 0 ls (State.set s p)).map Prod.fst = List.range ls.length
      rw [ht, List.map_map, List.range_eq_range']
      have hid : (Prod.fst ∘ fun n : Nat => (n, State.set s p)) = id := rfl
      rw [hid, List.map_id]
    · intro e he
      have he2 : e ∈ State.notifyFrom 0 ls (State.set s p) := he
      rw [ht] at he2
      rcases List.mem_map.mp he2 with ⟨n, _, hne⟩
      rw [← hne]
  · intro ls s i p h
    have ht := notifyFrom_all_ok ls (State.setIndexData s i p) h 0
    constructor
    · show (State.notifyFrom 0 ls (State.setIndexData s i p)).map Prod.fst
        = List.range ls.length
      rw [ht, List.map_map, List.range_eq_range']
      have hid : (Prod.fst ∘ fun n : Nat => (n, State.setIndexData s i p)) = id := rfl
      rw [hid, List.map_id]
    · intro e he
      have he2 : e ∈ State.notifyFrom 0 ls (State.setIndexData s i p) := he
      rw [ht] at he2
      rcases List.mem_map.mp he2 with ⟨n, _, hne⟩
      rw [← hne]
  · intro s i j
    by_cases hij : j = i
    · subst hij
      rw [State.getIndexData_setIndexData_self]
      rfl
    · exact State.getIndexData_setIndexData_ne s i {} j hij

/-- C10 witness: a no-op setIndexData call with an empty patch still
notifies the registered subscriber exactly once. -/
theorem notification_no_change_detection_witness :
    (State.setIndexDataNotify State.initState (some "Nifty") {}
        [fun _ => true]).2.map Prod.fst = List.range 1 :=
  (notification_no_change_detection.2.1 [fun _ => true] State.initState
    (some "Nifty") {}
    (by
      intro g hg
      rw [List.mem_singleton] at hg
      subst hg
      rfl)).1

/-- C10 counterexample: even for the empty (no-op) patch, a subscriber
registered behind a throwing one is not notified at all, so not every
registered subscriber is notified exactly once per call. -/
theorem noop_patch_notification_blocked :
    ((State.setIndexDataNotify State.initState (some "Nifty") {}
        [fun _ => false, fun _ => true]).2.map Prod.fst) = [0] ∧
    (1 : Nat) ∉ ((State.setIndexDataNotify State.initState (some "Nifty") {}
        [fun _ => false, fun _ => true]).2.map Prod.fst) :=
  ⟨rfl, by decide⟩

/-! ## Catalog refresh: selection resolution, races and failure
(claims C1, C3, C8) -/

/-- Helper: reading the refreshed index after a completed refresh gives
the old record with the three resolved selections merged in; hasData,
loadedFile and expiry are never part of the patch. -/
theorem refreshComplete_preserves_load (filesDict : Catalog) (index : String)
    (s : State.AppState) :
    (State.getIndexData (App.refreshComplete filesDict index s) (some index)).hasData
        = (State.getIndexData s (some index)).hasData ∧
    (State.getIndexData (App.refreshComplete filesDict index s) (some index)).loadedFile
        = (State.getIndexData s (some index)).loadedFile ∧
    (State.getIndexData (App.refreshComplete filesDict index s) (some index)).expiry
        = (State.getIndexData s (some index)).expiry := by
  simp only [App.refreshComplete]
  rw [State.getIndexData_setIndexData_self]
  exact ⟨rfl, rfl, rfl⟩

/-- Helper: the selectedExpiry a completed refresh stores for its index
is the resolution of the catalog against the record found at
response-arrival time. -/
theorem refreshComplete_selectedExpiry (filesDict : Catalog) (index : String)
    (s : State.AppState) :
    (State.getIndexData (App.refreshComplete filesDict index s)
        (some index)).selectedExpiry
      = App.resolveExpiry filesDict (State.getIndexData s (some index)) := by
  simp only [App.refreshComplete]
  rw [State.getIndexData_setIndexData_self]
  rfl

/-- C8 (amended): when the file-listing fetch fails, refresh leaves the
entire state untouched — the persisted selections and hasData/loadedFile
included — but the error is only logged inside the catch block, so the
caller observes a normal completion carrying no error rather than having
the error surfaced; and even a successful refresh never touches hasData,
loadedFile or expiry. -/
theorem refresh_failure_state_preserved (e : String) (index : String)
    (s : State.AppState) (filesDict : Catalog) :
    App.refreshFileControls (Except.error e) index s = (s, none) ∧
    (State.getIndexData (App.refreshFileControls (Except.ok filesDict) index s).1
        (some index)).hasData = (State.getIndexData s (some index)).hasData ∧
    (State.getIndexData (App.refreshFileControls (Except.ok filesDict) index s).1
        (some index)).loadedFile = (State.getIndexData s (some index)).loadedFile ∧
    (State.getIndexData (App.refreshFileControls (Except.ok filesDict) index s).1
        (some index)).expiry = (State.getIndexData s (some index)).expiry := by
  refine ⟨rfl, ?_, ?_, ?_⟩
  · exact (refreshComplete_preserves_load filesDict index s).1
  · exact (refreshComplete_preserves_load filesDict index s).2.1
  · exact (refreshComplete_preserves_load filesDict index s).2.2

/-- C8 counterexample: a failing refresh resolves normally with no error
value for the caller — the claimed surfacing of the error does not
happen (the catch block only logs it). -/
theorem refresh_failure_swallows_error :
    App.refreshFileControls (Except.error "network down") "Nifty" State.initState
      = (State.initState, (none : Option String)) ∧
    (none : Option String) ≠ some "network down" :=
  ⟨rfl, by decide⟩

/-- C1 (amended): a refresh invocation has no sequence number or any
other staleness guard: its completion always writes the resolved
selections through setIndexData against whatever state it finds at
response-arrival time; in particular, when the state left by a later
invocation holds an empty selectedExpiry and the stale catalog is
non-empty, the stale completion overwrites that state with the stale
catalog latest key. -/
theorem refreshComplete_always_writes (cat : Catalog) (index : String)
    (s : State.AppState)
    (h1 : (State.getIndexData s (some index)).selectedExpiry = "")
    (h2 : (App.sortedExpiries cat).headD "" ≠ "") :
    (State.getIndexData (App.refreshComplete cat index s)
        (some index)).selectedExpiry = (App.sortedExpiries cat).headD "" ∧
    (State.getIndexData (App.refreshComplete cat index s)
        (some index)).selectedExpiry
      ≠ (State.getIndexData s (some index)).selectedExpiry := by
  have hmain := refreshComplete_selectedExpiry cat index s
  have hres : App.resolveExpiry cat (State.getIndexData s (some index))
      = (App.sortedExpiries cat).headD "" := by
    simp [App.resolveExpiry, jsOr, h1]
  constructor
  · rw [hmain, hres]
  · rw [hmain, hres, h1]
    exact h2

/-- C1 witness: completing a stale refresh (old catalog with key
2024-01-25) on top of the state written by a later refresh that saw an
empty catalog does write the stale key. -/
theorem refreshComplete_always_writes_witness :
    (State.getIndexData
        (App.refreshComplete [("2024-01-25", ["t1"])] "Nifty"
          (App.refreshComplete [] "Nifty" State.initState))
        (some "Nifty")).selectedExpiry
      = (App.sortedExpiries [("2024-01-25", ["t1"])]).headD "" ∧
    (State.getIndexData
        (App.refreshComplete [("2024-01-25", ["t1"])] "Nifty"
          (App.refreshComplete [] "Nifty" State.initState))
        (some "Nifty")).selectedExpiry
      ≠ (State.getIndexData (App.refreshComplete [] "Nifty" State.initState)
          (some "Nifty")).selectedExpiry :=
  refreshComplete_always_writes [("2024-01-25", ["t1"])] "Nifty"
    (App.refreshComplete [] "Nifty" State.initState) (by decide) (by decide)

/-- C1 counterexample: invocation A starts first (its fetch returns the
old catalog with key 2024-01-25), invocation B starts later and completes
first with the newer, now-empty catalog; when the slow A response then
arrives, its completion changes the Nifty record that B wrote — the
stale response is written to the store, not discarded, so the state of
the later invocation is overwritten. -/
theorem stale_refresh_overwrites_later_state :
    State.getIndexData
        (App.refreshComplete [("2024-01-25", ["t1"])] "Nifty"
          (App.refreshComplete [] "Nifty" State.initState)) (some "Nifty")
      ≠ State.getIndexData (App.refreshComplete [] "Nifty" State.initState)
          (some "Nifty") := by
  decide

/-! ## Refinement comparator for the spec resolution rule (claim C3) -/

/-- Modelled from the words of the spec, for comparison with the code:
selectedExpiry = previously persisted selection if still present in the
sorted expiries, else the first (latest) entry, else empty. -/
def specResolveExpiry (cat : Catalog) (persisted : String) : String :=
  let expiries := App.sortedExpiries cat
  if persisted ∈ expiries then persisted else expiries.headD ""

/-- C3 counterexample: with catalog keys 2024-01-25 and 2024-02-01 and a
persisted selectedExpiry of 2099-12-31 that is no longer a catalog key,
the code keeps 2099-12-31 (the || truthiness test checks only
non-emptiness, not membership), while the spec rule resolves to the
latest key 2024-02-01 — so a persisted selectedExpiry is preserved even
when it is not a catalog key. -/
theorem resolveExpiry_ignores_membership :
    App.resolveExpiry [("2024-01-25", ["t1", "t2"]), ("2024-02-01", ["t3"])]
        { hasData := false, loadedFile := "", expiry := "",
          selectedExpiry := "2099-12-31", selectedFile := "", selectedFile2 := "" }
      = "2099-12-31" ∧
    specResolveExpiry [("2024-01-25", ["t1", "t2"]), ("2024-02-01", ["t3"])]
        "2099-12-31" = "2024-02-01" ∧
    App.resolveExpiry [("2024-01-25", ["t1", "t2"]), ("2024-02-01", ["t3"])]
        { hasData := false, loadedFile := "", expiry := "",
          selectedExpiry := "2099-12-31", selectedFile := "", selectedFile2 := "" }
      ≠ specResolveExpiry [("2024-01-25", ["t1", "t2"]), ("2024-02-01", ["t3"])]
          "2099-12-31" := by
  refine ⟨by decide, by decide, by decide⟩

/-- C3 (amended): the refresh resolution rule the code implements: a
non-empty persisted selectedExpiry is always kept, with no membership
check against the refreshed catalog; an empty one resolves to the
greatest (latest) catalog key, or stays empty for an empty catalog; a
non-empty persisted selectedFile is likewise always kept, and an empty
one resolves to the first file listed under the resolved expiry, or
stays empty. -/
theorem refresh_resolution_rule (cat : Catalog) (sel : State.IndexSelection) :
    (sel.selectedExpiry ≠ "" → App.resolveExpiry cat sel = sel.selectedExpiry) ∧
    (sel.selectedExpiry = "" → cat.map Prod.fst = [] →
      App.resolveExpiry cat sel = "") ∧
    (sel.selectedExpiry = "" → cat.map Prod.fst ≠ [] →
      App.resolveExpiry cat sel ∈ cat.map Prod.fst ∧
      ∀ k ∈ cat.map Prod.fst, strLeb k (App.resolveExpiry cat sel) = true) ∧
    (sel.selectedFile ≠ "" →
      App.resolveFile (App.filesFor cat (App.resolveExpiry cat sel)) sel
        = sel.selectedFile) ∧
    (sel.selectedFile = "" →
      App.resolveFile (App.filesFor cat (App.resolveExpiry cat sel)) sel
        = (App.filesFor cat (App.resolveExpiry cat sel)).headD "") := by
  refine ⟨?_, ?_, ?_, ?_, ?_⟩
  · intro h
    simp [App.resolveExpiry, jsOr, h]
  · intro h hnil
    simp [App.resolveExpiry, jsOr, h, App.sortedExpiries, hnil, sortAsc]
  · intro h hne
    have hmax := head_reverse_sortAsc_max (cat.map Prod.fst) hne
    have hres : App.resolveExpiry cat sel
        = (sortAsc (cat.map Prod.fst)).reverse.headD "" := by
      simp [App.resolveExpiry, jsOr, h, App.sortedExpiries]
    rw [hres]
    exact hmax
  · intro h
    simp [App.resolveFile, jsOr, h]
  · intro h
    simp [App.resolveFile, jsOr, h]

/-- C3 witness: with the spec sample catalog, a persisted selectedExpiry
of 2024-01-25 that is still a catalog key is preserved (refresh does not
snap to the latest key). -/
theorem refresh_resolution_rule_witness :
    App.resolveExpiry [("2024-01-25", ["t1", "t2"]), ("2024-02-01", ["t3"])]
        { hasData := false, loadedFile := "", expiry := "",
          selectedExpiry := "2024-01-25", selectedFile := "", selectedFile2 := "" }
      = "2024-01-25" :=
  (refresh_resolution_rule [("2024-01-25", ["t1", "t2"]), ("2024-02-01", ["t3"])]
      { hasData := false, loadedFile := "", expiry := "",
        selectedExpiry := "2024-01-25", selectedFile := "", selectedFile2 := "" }).1
    (by decide)

/-! ## Stale chart responses (claim C2) -/

/-- C2 (amended): the success path of Charts.fetchAndRender always hands
the fetched payload to the surface bound to the container — the
completion compares no captured selection token against the store (it
has no access to the store at all), so a response that became stale
through a selection change is rendered all the same. -/
theorem fetchAndRender_renders_unconditionally
    (index chartType containerId mode figureJson : String) (surf : Surface)
    (old : PanelContent) (h : lookupStr containerId surf = some old) :
    lookupStr containerId
        (Charts.fetchAndRender index chartType containerId mode
          (Except.ok figureJson) surf).1
      = some (PanelContent.rendered figureJson) := by
  show lookupStr containerId
      (Charts.render (Charts.showLoading surf containerId) containerId figureJson)
    = some (PanelContent.rendered figureJson)
  simp only [Charts.render, Charts.showLoading]
  rw [Charts.lookupStr_updatePanel_self, Charts.lookupStr_updatePanel_self, h]
  rfl

/-- C2 witness: a chart container in its placeholder state receives the
fetched figure. -/
theorem fetchAndRender_renders_unconditionally_witness :
    lookupStr "chart-gex"
        (Charts.fetchAndRender "Nifty" "gex" "chart-gex" "net" (Except.ok "FIG")
          [("chart-gex", PanelContent.placeholder)]).1
      = some (PanelContent.rendered "FIG") :=
  fetchAndRender_renders_unconditionally "Nifty" "gex" "chart-gex" "net" "FIG"
    [("chart-gex", PanelContent.placeholder)] PanelContent.placeholder (by decide)

/-- C2 counterexample: a load issued for the captured selection (Nifty,
gex, net) completes after the store selection has moved to BankNifty;
the claim requires the stale payload to be dropped and the surface left
as it was, but the completion renders the stale figure into the
container regardless — nothing in it compares the captured selection
with the store at response time. -/
theorem stale_chart_response_rendered :
    ("Nifty" : String) ≠ "BankNifty" ∧
    (Charts.fetchAndRender "Nifty" "gex" "chart-gex" "net" (Except.ok "FIG")
        [("chart-gex", PanelContent.loading)]).1
      = [("chart-gex", PanelContent.rendered "FIG")] ∧
    ([("chart-gex", PanelContent.rendered "FIG")] : Surface)
      ≠ [("chart-gex", PanelContent.loading)] := by
  refine ⟨by decide, by decide, by decide⟩
